import Mathlib

/-!
Formal model of the LSLT WiFi loyalty portal core: loyalty tiers, reward
triggers, device identification and authorization, abuse control, and voucher
redemption.  Each definition is a shallow embedding of the corresponding
JavaScript function; machine integers are modelled as `Nat`/`Int`, database
rows as records in association lists, and Sequelize instance updates as
first-match list updates.
-/

namespace LSLT

/-! ## Generic list helpers (model of Sequelize `findOne`/instance `update`) -/

/-- Update the first element satisfying `p` (a Sequelize `instance.update`
mutates exactly the row that `findOne` returned). -/
def updateFirst {α : Type} (p : α → Bool) (f : α → α) : List α → List α
  | [] => []
  | a :: rest => if p a then f a :: rest else a :: updateFirst p f rest

/-! ## String utilities -/

/-- Hexadecimal digit test (one character class of the MAC regex). -/
def isHexDigit (c : Char) : Bool :=
  (('0' ≤ c) && (c ≤ '9')) || (('A' ≤ c) && (c ≤ 'F')) || (('a' ≤ c) && (c ≤ 'f'))

/-- Character-list core of the MAC regex
`^([0-9A-Fa-f]{2}[:-]){5}([0-9A-Fa-f]{2})$`: `n` separator groups remain. -/
def macChars : List Char → Nat → Bool
  | a :: b :: [], 0 => isHexDigit a && isHexDigit b
  | a :: b :: s :: rest, n + 1 =>
      isHexDigit a && isHexDigit b && (s == ':' || s == '-') && macChars rest n
  | _, _ => false

/-- `isValidMacAddress` from `middleware/captive` (also used by the captive
portal authorization check): six colon/dash-separated hex octet pairs. -/
def isValidMacAddress (mac : String) : Bool :=
  macChars mac.data 5

/-- Substring test on character lists. -/
def listHasSub (sub : List Char) : List Char → Bool
  | [] => sub.isEmpty
  | c :: rest => sub.isPrefixOf (c :: rest) || listHasSub sub rest

/-- `String.includes`-style substring test. -/
def strContains (s sub : String) : Bool :=
  listHasSub sub.data s.data

/-- `String.startsWith` on the character lists. -/
def strStartsWith (s pre : String) : Bool :=
  pre.data.isPrefixOf s.data

/-- Case-insensitive substring test (model of a `/.../i` regex on a literal). -/
def strContainsCI (s sub : String) : Bool :=
  listHasSub (sub.data.map Char.toLower) (s.data.map Char.toLower)

/-- Uppercase hex digit for percent-encoding. -/
def hexDigitChar (n : Nat) : Char :=
  if n < 10 then Char.ofNat (48 + n) else Char.ofNat (55 + n)

/-- Apostrophe character (code 39). -/
def aposChar : Char := Char.ofNat 39

/-- Backtick character (code 96). -/
def backtickChar : Char := Char.ofNat 96

/-- Characters `encodeURIComponent` leaves unescaped. -/
def isUnreservedURI (c : Char) : Bool :=
  c.isAlphanum || c == '-' || c == '_' || c == '.' || c == '!' || c == '~' ||
  c == '*' || c == aposChar || c == Char.ofNat 40 || c == Char.ofNat 41

/-- JavaScript `encodeURIComponent`, for the ASCII identifiers this system
produces (MAC addresses and IP literals): percent-encodes every byte outside
the unreserved set. -/
def encodeURIComponent (s : String) : String :=
  String.mk ((s.data.map fun c =>
    if isUnreservedURI c then [c]
    else [Char.ofNat 37, hexDigitChar (c.toNat / 16 % 16), hexDigitChar (c.toNat % 16)]).flatten)

/-! ## Loyalty tiers (`utils/loyalty.js`) -/

/-- `LOYALTY_TIERS` from `utils/loyalty.js`: name, `minVisits`, `maxVisits`,
in object-entry order. -/
def LOYALTY_TIERS : List (String × Nat × Nat) :=
  [("Bronze", 0, 4), ("Silver", 5, 14), ("Gold", 15, 29), ("Platinum", 30, 999)]

/-- `calculateLoyaltyTier` from `utils/loyalty.js`: first tier whose
`minVisits ≤ visitCount ≤ maxVisits`, defaulting to Bronze. -/
def calculateLoyaltyTier (visitCount : Nat) : String :=
  match LOYALTY_TIERS.find? (fun t =>
      decide (t.2.1 ≤ visitCount) && decide (visitCount ≤ t.2.2)) with
  | some t => t.1
  | none => "Bronze"

/-- The four-band reference tier function stated by the specification
(Platinum band open-ended at 30+). -/
def referenceTier (visitCount : Nat) : String :=
  if visitCount ≤ 4 then "Bronze"
  else if visitCount ≤ 14 then "Silver"
  else if visitCount ≤ 29 then "Gold"
  else "Platinum"

/-- `calculateVisitsToNextTier` from `routes/auth.js`. -/
def calculateVisitsToNextTier (visitCount : Nat) : Nat :=
  if visitCount < 5 then 5 - visitCount
  else if visitCount < 15 then 15 - visitCount
  else if visitCount < 30 then 30 - visitCount
  else 0

/-! ## Data model (`models/index.js`) -/

/-- A `User` row: guest WiFi customer.  `loyaltyTier` is stored alongside
`visitCount`; the date of birth is kept as month/day for the birthday
trigger. -/
structure UserRec where
  id : String
  email : String
  visitCount : Nat
  loyaltyTier : String
  isBlocked : Bool
  blockReason : Option String
  birthMonth : Nat
  birthDay : Nat
  language : String
  deriving Repr, DecidableEq

/-- A `Device` row keyed by MAC address. -/
structure DeviceRec where
  id : String
  macAddress : String
  userId : Option String
  isActive : Bool
  isBlocked : Bool
  blockReason : Option String
  lastSeen : Int
  failedAttempts : Nat
  createdAt : Int
  deriving Repr, DecidableEq

/-- A `Staff` row (only the fields the abuse module touches). -/
structure StaffRec where
  id : String
  isBlocked : Bool
  failedAttempts : Nat
  deriving Repr, DecidableEq

/-- A `Voucher` row (visual codes omitted: opaque blobs). -/
structure VoucherRec where
  id : String
  code : String
  userId : Option String
  vtype : String
  value : String
  expiryDate : Int
  isRedeemed : Bool
  redeemedAt : Option Int
  redeemedBy : Option String
  createdAt : Int
  deriving Repr, DecidableEq

/-- A `Reward` definition row. -/
structure RewardRec where
  id : String
  name : String
  triggerType : String
  triggerValue : Option Nat
  value : String
  maxPerWeek : Nat
  validityDays : Nat
  isActive : Bool
  deriving Repr, DecidableEq

/-- `Device.findOne({ where: { macAddress } })`. -/
def findDevice (devices : List DeviceRec) (mac : String) : Option DeviceRec :=
  devices.find? (fun d => d.macAddress == mac)

/-- `User.findByPk(uid)`. -/
def findUserById (users : List UserRec) (uid : String) : Option UserRec :=
  users.find? (fun u => u.id == uid)

/-- `Staff.findByPk(sid)`. -/
def findStaffById (staff : List StaffRec) (sid : String) : Option StaffRec :=
  staff.find? (fun s => s.id == sid)

/-- The `include`d owning user of a device (`device.user`), when its
`userId` is set and the row exists. -/
def deviceOwner (users : List UserRec) (d : DeviceRec) : Option UserRec :=
  match d.userId with
  | none => none
  | some uid => findUserById users uid

/-! ## Login visit/tier update and reward evaluation
(`routes/auth.js`, `utils/loyalty.js`) -/

/-- The context object passed to `checkRewards` on the login path. -/
structure RewardContext where
  visitCount : Nat
  tierUpgrade : Bool
  referral : Bool
  deriving Repr, DecidableEq

/-- The visit bookkeeping a successful login performs
(`routes/auth.js` login route and `handleExistingDeviceLogin`):

```js
const newVisitCount = user.visitCount + 1;
const newLoyaltyTier = calculateLoyaltyTier(newVisitCount);
await user.update({ lastVisit: ..., visitCount: newVisitCount, loyaltyTier: newLoyaltyTier });
...
checkRewards(user.id, "visit", { visitCount: newVisitCount,
                                 tierUpgrade: newLoyaltyTier !== user.loyaltyTier });
```

A Sequelize `instance.update` mutates the instance in place, so the read of
`user.loyaltyTier` in the context literal happens on the already-updated
instance; the model keeps that evaluation order. -/
def loginVisitUpdate (user : UserRec) : UserRec × RewardContext :=
  let newVisitCount := user.visitCount + 1
  let newLoyaltyTier := calculateLoyaltyTier newVisitCount
  let updatedUser := { user with visitCount := newVisitCount, loyaltyTier := newLoyaltyTier }
  (updatedUser,
   { visitCount := newVisitCount,
     tierUpgrade := newLoyaltyTier != updatedUser.loyaltyTier,
     referral := false })

/-- One week in milliseconds (`moment().subtract(1, "week")`). -/
def WEEK_MS : Int := 7 * 24 * 60 * 60 * 1000

/-- `checkRecentReward`: count of the user's reward vouchers with this
reward's exact `value` created in the trailing week, compared with
`maxPerWeek`. -/
def checkRecentReward (vouchers : List VoucherRec) (userId : String) (reward : RewardRec)
    (now : Int) : Bool :=
  (vouchers.filter (fun v =>
      v.userId == some userId && v.vtype == "reward" && v.value == reward.value &&
      decide (v.createdAt ≥ now - WEEK_MS))).length ≥ reward.maxPerWeek

/-- `isBirthdayToday`: month and day of today equal the birth month/day. -/
def isBirthdayToday (todayMonth todayDay birthMonth birthDay : Nat) : Bool :=
  todayMonth == birthMonth && todayDay == birthDay

/-- `shouldAwardReward` from `utils/loyalty.js`: the trigger-type switch,
then the recent-reward suppression. -/
def shouldAwardReward (vouchers : List VoucherRec) (now : Int)
    (todayMonth todayDay : Nat) (user : UserRec) (reward : RewardRec)
    (context : RewardContext) : Bool :=
  let triggerOk : Bool :=
    if reward.triggerType == "visit_count" then
      some user.visitCount == reward.triggerValue
    else if reward.triggerType == "tier_upgrade" then
      context.tierUpgrade && some user.visitCount == reward.triggerValue
    else if reward.triggerType == "birthday" then
      isBirthdayToday todayMonth todayDay user.birthMonth user.birthDay
    else if reward.triggerType == "referral" then
      context.referral
    else false
  triggerOk && !(checkRecentReward vouchers user.id reward now)

/-- `checkRewards` from `utils/loyalty.js`: load the active rewards whose
`triggerType` equals the trigger, keep those `shouldAwardReward` accepts
(each accepted reward then has a voucher issued for it). -/
def checkRewards (vouchers : List VoucherRec) (now : Int) (todayMonth todayDay : Nat)
    (user : UserRec) (rewards : List RewardRec) (triggerType : String)
    (context : RewardContext) : List RewardRec :=
  (rewards.filter (fun r => r.triggerType == triggerType && r.isActive)).filter
    (fun r => shouldAwardReward vouchers now todayMonth todayDay user r context)

/-! ## Device identification on the signup/login path (`middleware/auth.js`) -/

/-- The request metadata `extractMacAddress` consults: the three MAC headers,
in source order, then `req.connection.remoteAddress`. -/
structure AuthRequestMeta where
  xClientMac : Option String
  xForwardedMac : Option String
  macAddressHeader : Option String
  remoteAddress : Option String
  deriving Repr, DecidableEq

/-- JavaScript-truthiness acceptance test of one candidate:
`mac && mac !== "::1" && mac !== "127.0.0.1"` (the empty string is falsy). -/
def macCandidateOk (m : Option String) : Bool :=
  match m with
  | none => false
  | some s => !(s == "") && !(s == "::1") && !(s == "127.0.0.1")

/-- `extractMacAddress` from `middleware/auth.js`: first acceptable source
among the three MAC headers and the raw connection address; no format
validation is performed. -/
def extractMacAddress (req : AuthRequestMeta) : Option String :=
  if macCandidateOk req.xClientMac then req.xClientMac
  else if macCandidateOk req.xForwardedMac then req.xForwardedMac
  else if macCandidateOk req.macAddressHeader then req.macAddressHeader
  else if macCandidateOk req.remoteAddress then req.remoteAddress
  else none

/-- Outcome of the identification gate at the top of the signup and login
routes (`if (!macAddress) return 400 "Device identification required"`). -/
inductive SignupGate
  | identificationRequired
  | proceed (mac : String)
  deriving Repr, DecidableEq

/-- The signup/login identification gate from `routes/auth.js`. -/
def signupIdentCheck (req : AuthRequestMeta) : SignupGate :=
  match extractMacAddress req with
  | none => SignupGate.identificationRequired
  | some m => SignupGate.proceed m

/-! ## Captive portal middleware (`middleware/captive`) -/

/-- A captive-portal probe request. -/
structure ProbeRequest where
  path : String
  userAgent : String
  xClientMac : Option String
  xForwardedMac : Option String
  macAddressHeader : Option String
  xRealMac : Option String
  ip : String
  deriving Repr, DecidableEq

/-- The fixed known-probe-path list `captivePortalPaths`. -/
def captivePortalPaths : List String :=
  ["/generate_204", "/hotspot-detect.html", "/library/test/success.html",
   "/connectivity-check.html", "/connecttest.txt", "/redirect",
   "/success.txt", "/ncsi.txt"]

/-- The known captive-portal user-agent substrings. -/
def captivePortalUserAgents : List String :=
  ["CaptiveNetworkSupport", "Microsoft NCSI",
   "Mozilla/5.0 (Windows NT 10.0; Win64; x64) AppleWebKit/537.36 (KHTML, like Gecko) Chrome/70.0.3538.102 Safari/537.36 Edge/18.18363",
   "wispr"]

/-- `isCaptivePortalRequest` classification: known path, known agent
substring, or a path containing hotspot/captive/connectivity. -/
def isCaptivePortalRequest (req : ProbeRequest) : Bool :=
  captivePortalPaths.contains req.path ||
  captivePortalUserAgents.any (fun agent => strContains req.userAgent agent) ||
  strContains req.path "hotspot" || strContains req.path "captive" ||
  strContains req.path "connectivity"

/-- One validated header candidate for `extractDeviceInfo`. -/
def validMacOpt (m : Option String) : Option String :=
  match m with
  | some s => if isValidMacAddress s then some s else none
  | none => none

/-- `extractDeviceInfo` from `middleware/captive`: first header value that
passes `isValidMacAddress`, otherwise the request IP. -/
def extractDeviceInfo (req : ProbeRequest) : String :=
  (validMacOpt req.xClientMac <|> validMacOpt req.xForwardedMac <|>
   validMacOpt req.macAddressHeader <|> validMacOpt req.xRealMac).getD req.ip

/-- `checkDeviceAuthorization`: validates the identifier, looks up the
device and its owner, and accepts only active, unblocked devices of
unblocked users, refreshing `lastSeen` on acceptance.  Returns the decision
and the device table after the `lastSeen` update. -/
def checkDeviceAuthorization (devices : List DeviceRec) (users : List UserRec)
    (macAddress : String) (now : Int) : Bool × List DeviceRec :=
  if !(isValidMacAddress macAddress) then (false, devices)
  else
    match findDevice devices macAddress with
    | none => (false, devices)
    | some device =>
      if device.isBlocked then (false, devices)
      else if (match deviceOwner users device with
               | some owner => owner.isBlocked
               | none => false) then (false, devices)
      else if device.isActive then
        (true, updateFirst (fun d => d.macAddress == macAddress)
                 (fun d => { d with lastSeen := now }) devices)
      else (false, devices)

/-- An HTTP response as the probe handlers produce it. -/
structure HttpResponse where
  status : Nat
  location : Option String
  body : Option String
  deriving Repr, DecidableEq

/-- `handleAndroidCaptivePortal`: 204 with no body when authorized, else a
302 redirect to the portal carrying the identifier and source tag; any error
raised inside the handler is caught and degraded to the bare portal
redirect (`fault` marks such an error). -/
def handleAndroidCaptivePortal (devices : List DeviceRec) (users : List UserRec)
    (macAddress : String) (now : Int) (fault : Bool) : HttpResponse × List DeviceRec :=
  if fault then
    ({ status := 302, location := some "/portal?source=android", body := none }, devices)
  else
    let r := checkDeviceAuthorization devices users macAddress now
    if r.1 then
      ({ status := 204, location := none, body := none }, r.2)
    else
      ({ status := 302,
         location := some ("/portal?device=" ++ encodeURIComponent macAddress ++ "&source=android"),
         body := none }, r.2)

/-- The iOS/Apple success page body. -/
def appleSuccessHtml : String :=
  "\n        <HTML><HEAD><TITLE>Success</TITLE></HEAD><BODY>Success</BODY></HTML>\n      "

/-- Shared shape of the iOS/Apple/Windows/generic handlers: a 200 page when
authorized, else the tagged portal redirect, degrading to the bare redirect
on an internal error. -/
def handleProbeWith (successBody : String) (source : String)
    (devices : List DeviceRec) (users : List UserRec)
    (macAddress : String) (now : Int) (fault : Bool) : HttpResponse × List DeviceRec :=
  if fault then
    ({ status := 302, location := some ("/portal?source=" ++ source), body := none }, devices)
  else
    let r := checkDeviceAuthorization devices users macAddress now
    if r.1 then
      ({ status := 200, location := none, body := some successBody }, r.2)
    else
      ({ status := 302,
         location := some ("/portal?device=" ++ encodeURIComponent macAddress ++ "&source=" ++ source),
         body := none }, r.2)

/-- `captivePortalMiddleware`: classify the request; on a probe, resolve the
device identifier and dispatch on the path; otherwise fall through
(`none` = `next()`). -/
def captivePortalMiddleware (devices : List DeviceRec) (users : List UserRec)
    (req : ProbeRequest) (now : Int) (fault : Bool) :
    Option (HttpResponse × List DeviceRec) :=
  if isCaptivePortalRequest req then
    let macAddress := extractDeviceInfo req
    if req.path == "/generate_204" then
      some (handleAndroidCaptivePortal devices users macAddress now fault)
    else if req.path == "/hotspot-detect.html" then
      some (handleProbeWith appleSuccessHtml "ios" devices users macAddress now fault)
    else if req.path == "/library/test/success.html" then
      some (handleProbeWith appleSuccessHtml "apple" devices users macAddress now fault)
    else if req.path == "/connecttest.txt" || req.path == "/ncsi.txt" then
      some (handleProbeWith "Microsoft Connect Test" "windows" devices users macAddress now fault)
    else
      some (handleProbeWith "OK" "generic" devices users macAddress now fault)
  else none

/-! ## Abuse detection and prevention (`middleware/abuse`) -/

def MAX_FAILED_ATTEMPTS : Nat := 3
def BLOCK_DURATION : Int := 15 * 60 * 1000
def ATTEMPT_WINDOW : Int := 15 * 60 * 1000
def MAX_DEVICE_REGISTRATIONS_PER_IP : Nat := 5
def MAX_DEVICE_REGISTRATIONS_WINDOW : Int := 60 * 60 * 1000

/-- The process-local abuse state: the `attemptStore` entries for failed
attempts (timestamps per `type:identifier` key) and for per-IP request
tracking (`requests:ip` keys, disjoint from the former by prefix), the
banned-IP set, and the pending `setTimeout` unban tasks as (delay, ip). -/
structure AbuseState where
  attempts : List (String × List Int)
  requests : List (String × List Int)
  blockedIps : List String
  timers : List (Int × String)
  deriving Repr, DecidableEq

/-- The empty state a fresh process starts from. -/
def AbuseState.empty : AbuseState := ⟨[], [], [], []⟩

/-- `Map.get(key) || []`. -/
def lookupStore (m : List (String × List Int)) (k : String) : List Int :=
  match m.find? (fun e => e.1 == k) with
  | some e => e.2
  | none => []

/-- `Map.set(key, v)`: replace the entry or append a new one. -/
def storeSet (m : List (String × List Int)) (k : String) (v : List Int) :
    List (String × List Int) :=
  match m with
  | [] => [(k, v)]
  | e :: rest => if e.1 == k then (k, v) :: rest else e :: storeSet rest k v

/-- `Map.delete(key)`. -/
def storeDelete (m : List (String × List Int)) (k : String) :
    List (String × List Int) :=
  m.filter (fun e => !(e.1 == k))

/-- `cleanOldAttempts`: prune every entry to the attempts newer than the
window cutoff, dropping entries that become empty. -/
def cleanOldAttempts (m : List (String × List Int)) (now : Int) :
    List (String × List Int) :=
  (m.map (fun e => (e.1, e.2.filter (fun t => decide (t > now - ATTEMPT_WINDOW))))).filter
    (fun e => !e.2.isEmpty)

/-- The persistent repository the abuse module blocks entities in. -/
structure Repo where
  users : List UserRec
  devices : List DeviceRec
  staff : List StaffRec
  deriving Repr, DecidableEq

/-- `blockDevice`: mark the device row blocked with the reason and bump its
failure counter; no-op when the row is missing. -/
def blockDevice (repo : Repo) (macAddress reason : String) : Repo :=
  { repo with devices := (updateFirst (fun d => d.macAddress == macAddress)
      (fun d => { d with isBlocked := true, blockReason := some reason,
                         failedAttempts := d.failedAttempts + 1 }) repo.devices) }

/-- `blockUser`: mark the user row blocked with the reason. -/
def blockUser (repo : Repo) (userId reason : String) : Repo :=
  { repo with users := (updateFirst (fun u => u.id == userId)
      (fun u => { u with isBlocked := true, blockReason := some reason }) repo.users) }

/-- `blockStaff`: mark the staff row blocked and bump its failure counter. -/
def blockStaff (repo : Repo) (staffId : String) : Repo :=
  { repo with staff := (updateFirst (fun s => s.id == staffId)
      (fun s => { s with isBlocked := true, failedAttempts := s.failedAttempts + 1 }) repo.staff) }

/-- `blockIp`: add the IP to the banned set and schedule the self-expiring
`setTimeout` deletion after `BLOCK_DURATION`. -/
def blockIp (st : AbuseState) (ip : String) : AbuseState :=
  { st with
    blockedIps := if st.blockedIps.contains ip then st.blockedIps else ip :: st.blockedIps,
    timers := (BLOCK_DURATION, ip) :: st.timers }

/-- `isIpBlocked`. -/
def isIpBlocked (st : AbuseState) (ip : String) : Bool :=
  st.blockedIps.contains ip

/-- Running the `setTimeout` callback scheduled by `blockIp`:
`blockedIps.delete(ip)` (the fired timer is discarded). -/
def fireUnblockTimer (st : AbuseState) (ip : String) : AbuseState :=
  { st with blockedIps := st.blockedIps.filter (fun x => !(x == ip)),
            timers := st.timers.filter (fun t => !(t.2 == ip)) }

/-- `handleExcessiveFailedAttempts`: block the entity named by the key in
the repository (dispatching on the entity type) and temporarily ban the
source IP. -/
def handleExcessiveFailedAttempts (st : AbuseState) (repo : Repo)
    (identifier ty ip : String) : AbuseState × Repo :=
  let repo1 :=
    if ty == "device" then blockDevice repo identifier "Excessive failed authentication attempts"
    else if ty == "staff" then blockStaff repo identifier
    else if ty == "user" then blockUser repo identifier "Excessive failed login attempts"
    else repo
  (blockIp st ip, repo1)

/-- `trackFailedAttempt`: prune, append the new attempt under
`type:identifier`, and when the windowed count reaches
`MAX_FAILED_ATTEMPTS` run the blocking cascade and report `true`. -/
def trackFailedAttempt (st : AbuseState) (repo : Repo)
    (identifier ty ip : String) (now : Int) : Bool × AbuseState × Repo :=
  let key := ty ++ ":" ++ identifier
  let st1 := { st with attempts := cleanOldAttempts st.attempts now }
  let windowed := (lookupStore st1.attempts key).filter
      (fun t => decide (now - t < ATTEMPT_WINDOW))
  let attempts := windowed ++ [now]
  let st2 := { st1 with attempts := storeSet st1.attempts key attempts }
  if attempts.length ≥ MAX_FAILED_ATTEMPTS then
    let r := handleExcessiveFailedAttempts st2 repo identifier ty ip
    (true, r.1, r.2)
  else
    (false, st2, repo)

/-- `clearFailedAttempts`: the sole reset path, wiping the key. -/
def clearFailedAttempts (st : AbuseState) (identifier ty : String) : AbuseState :=
  { st with attempts := storeDelete st.attempts (ty ++ ":" ++ identifier) }

/-- `getFailedAttemptCount`: windowed count for the key. -/
def getFailedAttemptCount (st : AbuseState) (identifier ty : String) (now : Int) : Nat :=
  ((lookupStore st.attempts (ty ++ ":" ++ identifier)).filter
    (fun t => decide (now - t < ATTEMPT_WINDOW))).length

/-- The in-window attempt list `trackFailedAttempt` sees for a key after
its pruning steps (analysis helper naming an intermediate of that
function). -/
def windowedAttempts (st : AbuseState) (identifier ty : String) (now : Int) : List Int :=
  (lookupStore (cleanOldAttempts st.attempts now) (ty ++ ":" ++ identifier)).filter
    (fun t => decide (now - t < ATTEMPT_WINDOW))

/-- The repository after the blocking cascade dispatches on the entity type
(analysis helper naming the repository component of
`handleExcessiveFailedAttempts`). -/
def blockEntityByType (repo : Repo) (identifier ty : String) : Repo :=
  if ty == "device" then blockDevice repo identifier "Excessive failed authentication attempts"
  else if ty == "staff" then blockStaff repo identifier
  else if ty == "user" then blockUser repo identifier "Excessive failed login attempts"
  else repo

/-- Whether the repository holds a row for the (entity-type, identifier)
key the abuse module blocks on. -/
def entityExistsIn (repo : Repo) (ty id : String) : Bool :=
  if ty == "device" then (findDevice repo.devices id).isSome
  else if ty == "user" then (findUserById repo.users id).isSome
  else if ty == "staff" then (findStaffById repo.staff id).isSome
  else false

/-- Whether the repository marks the (entity-type, identifier) key blocked. -/
def entityBlockedIn (repo : Repo) (ty id : String) : Bool :=
  if ty == "device" then
    (match findDevice repo.devices id with
     | some d => d.isBlocked
     | none => false)
  else if ty == "user" then
    (match findUserById repo.users id with
     | some u => u.isBlocked
     | none => false)
  else if ty == "staff" then
    (match findStaffById repo.staff id with
     | some s => s.isBlocked
     | none => false)
  else false

/-- A request as the abuse middleware sees it (`queryStr` is what
`req.query.toString()` yields). -/
structure WebRequest where
  ip : String
  path : String
  queryStr : String
  userAgent : String
  deriving Repr, DecidableEq

/-- Which internal step of the middleware raises an exception, if any;
all-false is the normal run. -/
structure AbuseFaults where
  banCheck : Bool
  scan : Bool
  track : Bool
  deriving Repr, DecidableEq

/-- The fault-free run. -/
def AbuseFaults.none : AbuseFaults := ⟨false, false, false⟩

/-- The middleware's verdict: pass to the next handler or reject with an
HTTP status. -/
inductive AdmitOutcome
  | nextOk
  | reject (status : Nat)
  deriving Repr, DecidableEq

/-- SQL-injection pattern `/('|(\')|(\%27)|(;)|(\%3B))/i` as a literal scan. -/
def sqlInjectionPattern (s : String) : Bool :=
  strContains s (String.mk [aposChar]) || strContainsCI s "%27" ||
  strContains s ";" || strContainsCI s "%3b"

/-- XSS pattern `/(<script|javascript:|onload=|onerror=)/i`. -/
def xssPattern (s : String) : Bool :=
  strContainsCI s "<script" || strContainsCI s "javascript:" ||
  strContainsCI s "onload=" || strContainsCI s "onerror="

/-- Path-traversal pattern. -/
def pathTraversalPattern (s : String) : Bool :=
  strContains s "../" || strContains s "..\\" || strContainsCI s "%2e%2e"

/-- Command-injection pattern. -/
def commandInjectionPattern (s : String) : Bool :=
  strContains s ";" || strContains s "&&" || strContains s "|" ||
  strContains s (String.mk [backtickChar]) || strContains s "$("

/-- `suspiciousPatterns`, in source order. -/
def suspiciousPatterns : List (String → Bool) :=
  [sqlInjectionPattern, xssPattern, pathTraversalPattern, commandInjectionPattern]

/-- Bot-like user-agent heuristic (log-only). -/
def suspiciousUserAgent (ua : String) : Bool :=
  strContainsCI ua "bot" || strContainsCI ua "crawler" || strContainsCI ua "spider" ||
  strContainsCI ua "scanner" || strContainsCI ua "curl" || strContainsCI ua "wget"

/-- `getRecentRequests`: the stored per-IP request list length (pruning
happens at write time in `trackRequest`). -/
def getRecentRequests (st : AbuseState) (ip : String) : Nat :=
  (lookupStore st.requests ("requests:" ++ ip)).length

/-- `getRecentDeviceRegistrations`: devices created within the trailing
hour (the source counts all devices; there is no IP column). -/
def getRecentDeviceRegistrations (devices : List DeviceRec) (now : Int) : Nat :=
  (devices.filter (fun d => decide (d.createdAt ≥ now - MAX_DEVICE_REGISTRATIONS_WINDOW))).length

/-- Result record of `detectSuspiciousActivity`. -/
structure SuspiciousResult where
  isSuspicious : Bool
  shouldBlock : Bool
  reason : String
  deriving Repr, DecidableEq

/-- `detectSuspiciousActivity`, checks in source order: injection patterns
on path and query, rapid requests, bot agents (no block), registration
abuse on signup-like paths. -/
def detectSuspiciousActivity (st : AbuseState) (devices : List DeviceRec)
    (req : WebRequest) (now : Int) : SuspiciousResult :=
  if suspiciousPatterns.any (fun p => p req.path || p req.queryStr) then
    ⟨true, true, "Potential injection attack detected"⟩
  else if getRecentRequests st req.ip > 50 then
    ⟨true, true, "Rapid successive requests detected"⟩
  else if suspiciousUserAgent req.userAgent then
    ⟨true, false, "Suspicious user agent detected"⟩
  else if (strContains req.path "/api/auth/signup" || strContains req.path "/api/users") &&
          decide (getRecentDeviceRegistrations devices now ≥ MAX_DEVICE_REGISTRATIONS_PER_IP) then
    ⟨true, true, "Excessive device registrations from IP"⟩
  else ⟨false, false, ""⟩

/-- `trackRequest`: append the timestamp to the pruned per-IP 60-second
window. -/
def trackRequest (st : AbuseState) (ip : String) (now : Int) : AbuseState :=
  let key := "requests:" ++ ip
  let reqs := (lookupStore st.requests key).filter (fun t => decide (now - t < 60000))
  { st with requests := storeSet st.requests key (reqs ++ [now]) }

/-- The allow-list bypass at the top of the middleware. -/
def requestBypassed (req : WebRequest) : Bool :=
  req.path == "/health" || strStartsWith req.path "/static" || strStartsWith req.path "/assets"

/-- `abuseMiddleware`: bypass allow-listed paths, reject banned IPs with
403, reject-and-ban blocking suspicious activity with 429, otherwise record
the request and pass through.  The whole body sits in one
`try`/`catch (→ next())`; a fault at a step models an exception raised
there. -/
def abuseMiddleware (st : AbuseState) (devices : List DeviceRec)
    (req : WebRequest) (now : Int) (faults : AbuseFaults) :
    AdmitOutcome × AbuseState :=
  if requestBypassed req then (AdmitOutcome.nextOk, st)
  else if faults.banCheck then (AdmitOutcome.nextOk, st)
  else if isIpBlocked st req.ip then (AdmitOutcome.reject 403, st)
  else if faults.scan then (AdmitOutcome.nextOk, st)
  else
    let susp := detectSuspiciousActivity st devices req now
    if susp.isSuspicious && susp.shouldBlock then
      (AdmitOutcome.reject 429, blockIp st req.ip)
    else if faults.track then (AdmitOutcome.nextOk, st)
    else (AdmitOutcome.nextOk, trackRequest st req.ip now)

/-! ## Voucher redemption (`utils/vouchers.js`) -/

/-- `Voucher.findOne({ where: { code } })`. -/
def findVoucher (vs : List VoucherRec) (code : String) : Option VoucherRec :=
  vs.find? (fun v => v.code == code)

/-- The structured result `redeemVoucher` returns. -/
inductive RedeemResult
  | notFound
  | alreadyRedeemed (redeemedAt : Option Int) (redeemedBy : Option String)
  | expired (expiryDate : Int)
  | redeemed (code : String)
  deriving Repr, DecidableEq

/-- `redeemVoucher`: not-found, already-redeemed and passively-expired
checks in order, then mark the row redeemed.  Expiry uses
`moment().isAfter(expiryDate)`, i.e. strictly `now > expiryDate`. -/
def redeemVoucher (vs : List VoucherRec) (voucherCode staffId : String) (now : Int) :
    RedeemResult × List VoucherRec :=
  match findVoucher vs voucherCode with
  | none => (RedeemResult.notFound, vs)
  | some voucher =>
    if voucher.isRedeemed then
      (RedeemResult.alreadyRedeemed voucher.redeemedAt voucher.redeemedBy, vs)
    else if now > voucher.expiryDate then
      (RedeemResult.expired voucher.expiryDate, vs)
    else
      (RedeemResult.redeemed voucher.code,
       updateFirst (fun v => v.code == voucherCode)
         (fun v => { v with isRedeemed := true, redeemedAt := some now,
                            redeemedBy := some staffId }) vs)

/-! ## Login device-limit step (`routes/auth.js`) -/

/-- `maxDevices` (hard-coded 2 in the login route). -/
def maxDevices : Nat := 2

/-- `Device.findOne({ where: { macAddress, userId } })`. -/
def findUserDevice (devices : List DeviceRec) (mac uid : String) : Option DeviceRec :=
  devices.find? (fun d => d.macAddress == mac && d.userId == some uid)

/-- The login route's `user.devices` include: the user's active devices. -/
def activeDeviceCount (devices : List DeviceRec) (uid : String) : Nat :=
  (devices.filter (fun d => d.userId == some uid && d.isActive)).length

/-- Outcome of the device branch of the login route. -/
inductive LoginDeviceOutcome
  | limitExceeded
  | deviceBlocked (reason : Option String)
  | proceed (deviceId : String)
  deriving Repr, DecidableEq

/-- The device-limit/registration branch of the login route
(`routes/auth.js` lines 343–391): a new device is created only under the
limit; an existing device is rejected when blocked, reactivated when
inactive, and left untouched when already active. -/
def loginDeviceStep (devices : List DeviceRec) (user : UserRec) (mac : String)
    (now : Int) (newId : String) : LoginDeviceOutcome × List DeviceRec :=
  let cnt := activeDeviceCount devices user.id
  match findUserDevice devices mac user.id with
  | none =>
    if cnt ≥ maxDevices then (LoginDeviceOutcome.limitExceeded, devices)
    else
      (LoginDeviceOutcome.proceed newId,
       devices ++ [{ id := newId, macAddress := mac, userId := some user.id,
                     isActive := true, isBlocked := false, blockReason := none,
                     lastSeen := now, failedAttempts := 0, createdAt := now }])
  | some device =>
    if !device.isActive || device.isBlocked then
      if device.isBlocked then (LoginDeviceOutcome.deviceBlocked device.blockReason, devices)
      else
        (LoginDeviceOutcome.proceed device.id,
         updateFirst (fun d => d.macAddress == mac && d.userId == some user.id)
           (fun d => { d with isActive := true, lastSeen := now }) devices)
    else (LoginDeviceOutcome.proceed device.id, devices)

/-! ## Concrete instances used in witnesses and counterexamples -/

/-- A returning Bronze guest one visit short of Silver. -/
def user4 : UserRec :=
  { id := "u1", email := "guest@example.com", visitCount := 4,
    loyaltyTier := "Bronze", isBlocked := false, blockReason := none,
    birthMonth := 1, birthDay := 1, language := "en" }

/-- The default "Silver Tier Upgrade" reward definition
(`DEFAULT_REWARDS` in `utils/loyalty.js`). -/
def silverTierUpgradeReward : RewardRec :=
  { id := "r-silver", name := "Silver Tier Upgrade", triggerType := "tier_upgrade",
    triggerValue := some 5, value := "Free Pastry", maxPerWeek := 1,
    validityDays := 30, isActive := true }

/-- A signup/login request carrying no MAC header at all, just a LAN
connection address. -/
def bareIpRequest : AuthRequestMeta :=
  { xClientMac := none, xForwardedMac := none, macAddressHeader := none,
    remoteAddress := some "192.168.1.50" }

/-- An active, unblocked device of `user4`. -/
def okDev : DeviceRec :=
  { id := "d-ok", macAddress := "AA:BB:CC:DD:EE:FF", userId := some "u1",
    isActive := true, isBlocked := false, blockReason := none,
    lastSeen := 0, failedAttempts := 0, createdAt := 0 }

/-- The same device, blocked. -/
def blockedDev : DeviceRec :=
  { okDev with id := "d-blocked", isBlocked := true, blockReason := some "abuse" }

/-- Abuse state with two prior failures already recorded against `okDev`. -/
def twoFailuresState : AbuseState :=
  { attempts := [("device:AA:BB:CC:DD:EE:FF", [0, 0])], requests := [],
    blockedIps := [], timers := [] }

/-- Repository holding `user4` and `okDev`. -/
def demoRepo : Repo :=
  { users := [user4], devices := [okDev], staff := [] }

/-- An unredeemed reward voucher expiring at time 1000. -/
def freshVoucher : VoucherRec :=
  { id := "v1", code := "RW100", userId := some "u1", vtype := "reward",
    value := "Free Pastry", expiryDate := 1000, isRedeemed := false,
    redeemedAt := none, redeemedBy := none, createdAt := 0 }

/-- A request whose path contains a SQL-injection metacharacter. -/
def sqlReq : WebRequest :=
  { ip := "203.0.113.9", path := "/api/login;DROP TABLE users",
    queryStr := "", userAgent := "Mozilla/5.0" }

/-- An ordinary request used for the fail-open witnesses. -/
def plainReq : WebRequest :=
  { ip := "198.51.100.7", path := "/api/portal", queryStr := "",
    userAgent := "Mozilla/5.0" }

/-- An Android connectivity probe from a device that sent no MAC header. -/
def androidProbe : ProbeRequest :=
  { path := "/generate_204", userAgent := "Dalvik/2.1.0", xClientMac := none,
    xForwardedMac := none, macAddressHeader := none, xRealMac := none,
    ip := "10.1.1.7" }

/-! ## Helper lemmas -/

theorem find?_updateFirst {α : Type} (p : α → Bool) (f : α → α) (l : List α) (a : α)
    (h : l.find? p = some a) (hf : p (f a) = true) :
    (updateFirst p f l).find? p = some (f a) := by
  induction l with
  | nil => simp [List.find?] at h
  | cons b rest ih =>
    by_cases hb : p b
    · simp [List.find?, hb] at h
      subst h
      simp [updateFirst, hb, List.find?, hf]
    · simp [List.find?, hb] at h
      simp [updateFirst, hb, List.find?, ih h]

theorem contains_filter_ne (l : List String) (ip : String) :
    (l.filter (fun x => !(x == ip))).contains ip = false := by
  induction l with
  | nil => rfl
  | cons b rest ih =>
    by_cases hb : b = ip
    · subst hb
      simp [List.filter_cons, ih]
    · simp only [List.filter_cons, beq_iff_eq, hb]
      simp [List.contains_cons, beq_iff_eq, hb, Ne.symm hb, ih]

theorem isIpBlocked_blockIp (st : AbuseState) (ip : String) :
    isIpBlocked (blockIp st ip) ip = true := by
  unfold isIpBlocked blockIp
  by_cases h : st.blockedIps.contains ip = true
  · rw [if_pos h]
    exact h
  · rw [if_neg h]
    simp [List.contains_cons]

theorem find?_storeSet (m : List (String × List Int)) (k : String) (v : List Int) :
    (storeSet m k v).find? (fun e => e.1 == k) = some (k, v) := by
  induction m with
  | nil => simp [storeSet, List.find?]
  | cons e rest ih =>
    by_cases h : e.1 = k
    · simp [storeSet, h, List.find?]
    · have hb : (e.1 == k) = false := by simp [beq_iff_eq, h]
      simp [storeSet, hb, List.find?, ih]

theorem lookupStore_storeSet (m : List (String × List Int)) (k : String) (v : List Int) :
    lookupStore (storeSet m k v) k = v := by
  unfold lookupStore
  rw [find?_storeSet]

theorem find?_eq_none_of_no_key (m : List (String × List Int)) (k : String)
    (h : ∀ e ∈ m, e.1 ≠ k) : m.find? (fun e => e.1 == k) = none := by
  induction m with
  | nil => rfl
  | cons e rest ih =>
    have he : (e.1 == k) = false := by
      simp only [beq_eq_false_iff_ne, ne_eq]
      exact h e (List.mem_cons_self e rest)
    simp [List.find?, he, ih (fun x hx => h x (List.mem_cons_of_mem _ hx))]

theorem lookupStore_eq_nil_of_no_key (m : List (String × List Int)) (k : String)
    (h : ∀ e ∈ m, e.1 ≠ k) : lookupStore m k = [] := by
  unfold lookupStore
  rw [find?_eq_none_of_no_key m k h]

theorem mem_cleanOldAttempts_key (m : List (String × List Int)) (now : Int)
    (e : String × List Int) (he : e ∈ cleanOldAttempts m now) :
    ∃ e₀ ∈ m, e₀.1 = e.1 := by
  unfold cleanOldAttempts at he
  have he2 := List.mem_of_mem_filter he
  rcases List.mem_map.mp he2 with ⟨e₀, he₀, rfl⟩
  exact ⟨e₀, he₀, rfl⟩

theorem lookupStore_clean_delete (m : List (String × List Int)) (k : String) (now : Int) :
    lookupStore (cleanOldAttempts (storeDelete m k) now) k = [] := by
  apply lookupStore_eq_nil_of_no_key
  intro e he
  rcases mem_cleanOldAttempts_key _ _ _ he with ⟨e₀, he₀, hk⟩
  unfold storeDelete at he₀
  have hne := List.of_mem_filter he₀
  rw [← hk]
  simpa [beq_iff_eq] using hne

theorem macCandidateOk_some (m : Option String) (h : macCandidateOk m = true) :
    ∃ s, m = some s := by
  cases m with
  | none => simp [macCandidateOk] at h
  | some s => exact ⟨s, rfl⟩

theorem calculateLoyaltyTier_eq_reference (v : Nat) (hv : v ≤ 999) :
    calculateLoyaltyTier v = referenceTier v := by
  unfold calculateLoyaltyTier LOYALTY_TIERS referenceTier
  by_cases h4 : v ≤ 4
  · simp [List.find?, h4, Nat.zero_le]
  · by_cases h14 : v ≤ 14
    · have h5 : 5 ≤ v := by omega
      simp [List.find?, h4, h5, h14]
    · by_cases h29 : v ≤ 29
      · have h15 : 15 ≤ v := by omega
        simp [List.find?, h4, h14, h15, h29]
      · have h30 : 30 ≤ v := by omega
        simp [List.find?, h4, h14, h29, h30, hv]

/-! ## Claim theorems -/

/-- C1: `calculateLoyaltyTier` is claimed to equal the four-band reference
function with Platinum for every `v ≥ 30` (hence monotonic and idempotent).
The code agrees with the reference below 1000, but `LOYALTY_TIERS` caps
Platinum at `maxVisits = 999`, so at `v = 1000` the loop falls through to
the Bronze fallback: the tier drops from Platinum at 999 to Bronze at 1000,
contradicting the claimed band and monotonicity. -/
theorem calculateLoyaltyTier_caps_at_999 :
    (∀ v : Nat, v ≤ 999 → calculateLoyaltyTier v = referenceTier v) ∧
    calculateLoyaltyTier 999 = "Platinum" ∧
    calculateLoyaltyTier 1000 = "Bronze" ∧
    referenceTier 1000 = "Platinum" := by
  refine ⟨calculateLoyaltyTier_eq_reference, by decide, by decide, by decide⟩

/-- Witness for the hypothesis of `calculateLoyaltyTier_caps_at_999`:
the agreement instantiated at v = 5. -/
theorem calculateLoyaltyTier_caps_at_999_witness :
    calculateLoyaltyTier 5 = referenceTier 5 ∧ calculateLoyaltyTier 1000 = "Bronze" :=
  ⟨calculateLoyaltyTier_caps_at_999.1 5 (by decide), calculateLoyaltyTier_caps_at_999.2.2.1⟩

/-- C2: the login path does increment `visitCount` by exactly 1, but the
reward context's `tierUpgrade` flag is computed *after* `user.update` has
already mutated `user.loyaltyTier` to the new tier, so it compares the new
tier with itself and is `false` on every login; moreover the rewards are
loaded with `triggerType = "visit"`, which matches no `tier_upgrade`
reward.  At the claimed scenario (visitCount 4 → 5, Bronze → Silver, the
default Silver tier-upgrade reward active) no voucher is issued, refuting
the claim that exactly one tier-upgrade voucher is issued. -/
theorem login_tierUpgrade_context_always_false :
    (∀ u : UserRec, (loginVisitUpdate u).1.visitCount = u.visitCount + 1 ∧
        (loginVisitUpdate u).2.tierUpgrade = false) ∧
    (loginVisitUpdate user4).1.visitCount = 5 ∧
    (loginVisitUpdate user4).1.loyaltyTier = "Silver" ∧
    user4.loyaltyTier = "Bronze" ∧
    checkRewards [] 0 6 15 (loginVisitUpdate user4).1 [silverTierUpgradeReward] "visit"
      (loginVisitUpdate user4).2 = [] ∧
    shouldAwardReward [] 0 6 15 (loginVisitUpdate user4).1 silverTierUpgradeReward
      (loginVisitUpdate user4).2 = false := by
  refine ⟨fun u => ⟨rfl, ?_⟩, by decide, by decide, by decide, by decide, by decide⟩
  simp [loginVisitUpdate]

/-- C3 counterexample: a signup request with no MAC header at all and a
plain LAN connection address is *not* rejected with identification
required — `extractMacAddress` falls back to the raw connection address
(which fails the hardware-address pattern) and the signup proceeds with it
as the device identifier. -/
theorem signup_accepts_raw_ip_identifier :
    signupIdentCheck bareIpRequest = SignupGate.proceed "192.168.1.50" ∧
    isValidMacAddress "192.168.1.50" = false := by
  decide

/-- C3 (amended): on the signup/login path the identification gate fails
closed *only* when every source — the three MAC headers and the raw
connection address — is absent, empty, or a loopback literal; whatever
identifier it accepts is taken verbatim from one of those four sources with
no hardware-address validation. -/
theorem extractMacAddress_gate_spec : ∀ req : AuthRequestMeta,
    (signupIdentCheck req = SignupGate.identificationRequired ↔
      (macCandidateOk req.xClientMac = false ∧ macCandidateOk req.xForwardedMac = false ∧
       macCandidateOk req.macAddressHeader = false ∧ macCandidateOk req.remoteAddress = false)) ∧
    (∀ m, extractMacAddress req = some m →
      (req.xClientMac = some m ∨ req.xForwardedMac = some m ∨
       req.macAddressHeader = some m ∨ req.remoteAddress = some m)) := by
  intro req
  constructor
  · unfold signupIdentCheck extractMacAddress
    by_cases h1 : macCandidateOk req.xClientMac = true
    · rcases macCandidateOk_some _ h1 with ⟨s, hs⟩
      rw [hs] at h1 ⊢
      simp [h1]
    · rw [Bool.not_eq_true] at h1
      by_cases h2 : macCandidateOk req.xForwardedMac = true
      · rcases macCandidateOk_some _ h2 with ⟨s, hs⟩
        rw [hs] at h2 ⊢
        simp [h1, h2]
      · rw [Bool.not_eq_true] at h2
        by_cases h3 : macCandidateOk req.macAddressHeader = true
        · rcases macCandidateOk_some _ h3 with ⟨s, hs⟩
          rw [hs] at h3 ⊢
          simp [h1, h2, h3]
        · rw [Bool.not_eq_true] at h3
          by_cases h4 : macCandidateOk req.remoteAddress = true
          · rcases macCandidateOk_some _ h4 with ⟨s, hs⟩
            rw [hs] at h4 ⊢
            simp [h1, h2, h3, h4]
          · rw [Bool.not_eq_true] at h4
            simp [h1, h2, h3, h4]
  · intro m hm
    unfold extractMacAddress at hm
    by_cases h1 : macCandidateOk req.xClientMac = true
    · rw [if_pos h1] at hm
      exact Or.inl hm
    · rw [if_neg h1] at hm
      by_cases h2 : macCandidateOk req.xForwardedMac = true
      · rw [if_pos h2] at hm
        exact Or.inr (Or.inl hm)
      · rw [if_neg h2] at hm
        by_cases h3 : macCandidateOk req.macAddressHeader = true
        · rw [if_pos h3] at hm
          exact Or.inr (Or.inr (Or.inl hm))
        · rw [if_neg h3] at hm
          by_cases h4 : macCandidateOk req.remoteAddress = true
          · rw [if_pos h4] at hm
            exact Or.inr (Or.inr (Or.inr hm))
          · rw [if_neg h4] at hm
            exact absurd hm (by simp)

/-- Witness for `extractMacAddress_gate_spec`: on `bareIpRequest` the
accepted identifier comes from the raw connection address. -/
theorem extractMacAddress_gate_spec_witness :
    bareIpRequest.xClientMac = some "192.168.1.50" ∨
    bareIpRequest.xForwardedMac = some "192.168.1.50" ∨
    bareIpRequest.macAddressHeader = some "192.168.1.50" ∨
    bareIpRequest.remoteAddress = some "192.168.1.50" :=
  (extractMacAddress_gate_spec bareIpRequest).2 "192.168.1.50" (by decide)

/-- C4: `checkDeviceAuthorization` returns true exactly when the identifier
passes hardware-address validation, a device row exists, the device is not
blocked, its owning user (when present) is not blocked, and the device is
active; on acceptance the device's `lastSeen` is refreshed to the current
time, and on every rejection the device table is left untouched. -/
theorem checkDeviceAuthorization_spec : ∀ (devices : List DeviceRec) (users : List UserRec)
    (mac : String) (now : Int),
    ((checkDeviceAuthorization devices users mac now).1 = true ↔
      (isValidMacAddress mac = true ∧ ∃ d, findDevice devices mac = some d ∧
        d.isBlocked = false ∧
        (∀ u, deviceOwner users d = some u → u.isBlocked = false) ∧
        d.isActive = true)) ∧
    ((checkDeviceAuthorization devices users mac now).1 = true →
      ∃ d, findDevice devices mac = some d ∧
        findDevice (checkDeviceAuthorization devices users mac now).2 mac =
          some { d with lastSeen := now }) ∧
    ((checkDeviceAuthorization devices users mac now).1 = false →
      (checkDeviceAuthorization devices users mac now).2 = devices) := by
  intro devices users mac now
  unfold checkDeviceAuthorization
  by_cases hv : isValidMacAddress mac = true
  case neg =>
    rw [Bool.not_eq_true] at hv
    simp [hv]
  case pos =>
    rw [hv]
    simp only [Bool.not_true, Bool.false_eq_true, if_false]
    have hfd : findDevice devices mac = devices.find? (fun x => x.macAddress == mac) := rfl
    cases hd : devices.find? (fun x => x.macAddress == mac) with
    | none => simp [hfd, hd]
    | some d =>
      rw [hfd, hd]
      dsimp only
      have hp : (d.macAddress == mac) = true := by
        have h := List.find?_some hd
        exact h
      have hupd := find?_updateFirst (fun x => x.macAddress == mac)
        (fun x => { x with lastSeen := now }) devices d hd hp
      by_cases hb : d.isBlocked = true
      · simp [hb]
      · rw [Bool.not_eq_true] at hb
        cases ho : deviceOwner users d with
        | some owner =>
          by_cases hob : owner.isBlocked = true
          · simp [hb, ho, hob]
          · rw [Bool.not_eq_true] at hob
            by_cases ha : d.isActive = true
            · simp [hb, ho, hob, ha, findDevice, hupd]
            · rw [Bool.not_eq_true] at ha
              simp [hb, ho, hob, ha]
        | none =>
          by_cases ha : d.isActive = true
          · simp [hb, ho, ha, findDevice, hupd]
          · rw [Bool.not_eq_true] at ha
            simp [hb, ho, ha]

/-- Witness for `checkDeviceAuthorization_spec`: the active unblocked
device `okDev` of the unblocked `user4` is authorized and its `lastSeen`
advances to the probe time. -/
theorem checkDeviceAuthorization_spec_witness :
    ∃ d, findDevice [okDev] "AA:BB:CC:DD:EE:FF" = some d ∧
      findDevice (checkDeviceAuthorization [okDev] [user4] "AA:BB:CC:DD:EE:FF" 42).2
        "AA:BB:CC:DD:EE:FF" = some { d with lastSeen := 42 } :=
  (checkDeviceAuthorization_spec [okDev] [user4] "AA:BB:CC:DD:EE:FF" 42).2.1 (by decide)

/-- C5: `trackFailedAttempt` signals should-block exactly when the windowed
count for the key (as `getFailedAttemptCount` reports it afterwards) has
reached `MAX_FAILED_ATTEMPTS = 3`; on that signal the source IP is banned
and the repository row for the key's entity is marked blocked; and after
`clearFailedAttempts` a single further failure does not block — the count
restarts at 1. -/
theorem filter_window_single (now : Int) :
    List.filter (fun t => decide (now - t < ATTEMPT_WINDOW)) [now] = [now] := by
  have hpred : (decide (now - now < ATTEMPT_WINDOW)) = true := by
    refine decide_eq_true ?_
    unfold ATTEMPT_WINDOW
    omega
  simp only [List.filter, hpred]

theorem windowedAttempts_filter_self (st : AbuseState) (id ty : String) (now : Int) :
    (windowedAttempts st id ty now).filter (fun t => decide (now - t < ATTEMPT_WINDOW)) =
      windowedAttempts st id ty now := by
  unfold windowedAttempts
  rw [List.filter_filter]
  simp

theorem windowedAttempts_clear (st : AbuseState) (id ty : String) (now : Int) :
    windowedAttempts (clearFailedAttempts st id ty) id ty now = [] := by
  unfold windowedAttempts clearFailedAttempts
  rw [lookupStore_clean_delete]
  rfl

theorem trackFailedAttempt_fst_iff (st : AbuseState) (repo : Repo) (id ty ip : String)
    (now : Int) :
    ((trackFailedAttempt st repo id ty ip now).1 = true ↔
      (windowedAttempts st id ty now ++ [now]).length ≥ MAX_FAILED_ATTEMPTS) := by
  unfold trackFailedAttempt windowedAttempts
  dsimp only
  by_cases hge : ((lookupStore (cleanOldAttempts st.attempts now) (ty ++ ":" ++ id)).filter
      (fun t => decide (now - t < ATTEMPT_WINDOW)) ++ [now]).length ≥ MAX_FAILED_ATTEMPTS
  · rw [if_pos hge]
    simpa using hge
  · rw [if_neg hge]
    simpa using hge

theorem trackFailedAttempt_attempts (st : AbuseState) (repo : Repo) (id ty ip : String)
    (now : Int) :
    (trackFailedAttempt st repo id ty ip now).2.1.attempts =
      storeSet (cleanOldAttempts st.attempts now) (ty ++ ":" ++ id)
        (windowedAttempts st id ty now ++ [now]) := by
  unfold trackFailedAttempt windowedAttempts
  dsimp only
  by_cases hge : ((lookupStore (cleanOldAttempts st.attempts now) (ty ++ ":" ++ id)).filter
      (fun t => decide (now - t < ATTEMPT_WINDOW)) ++ [now]).length ≥ MAX_FAILED_ATTEMPTS
  · rw [if_pos hge]
    rfl
  · rw [if_neg hge]

theorem trackFailedAttempt_count (st : AbuseState) (repo : Repo) (id ty ip : String)
    (now : Int) :
    getFailedAttemptCount (trackFailedAttempt st repo id ty ip now).2.1 id ty now =
      (windowedAttempts st id ty now ++ [now]).length := by
  unfold getFailedAttemptCount
  rw [trackFailedAttempt_attempts, lookupStore_storeSet, List.filter_append,
    filter_window_single, windowedAttempts_filter_self]

theorem trackFailedAttempt_banned (st : AbuseState) (repo : Repo) (id ty ip : String)
    (now : Int) (h : (trackFailedAttempt st repo id ty ip now).1 = true) :
    isIpBlocked (trackFailedAttempt st repo id ty ip now).2.1 ip = true := by
  unfold trackFailedAttempt at h ⊢
  dsimp only at h ⊢
  by_cases hge : ((lookupStore (cleanOldAttempts st.attempts now) (ty ++ ":" ++ id)).filter
      (fun t => decide (now - t < ATTEMPT_WINDOW)) ++ [now]).length ≥ MAX_FAILED_ATTEMPTS
  · rw [if_pos hge]
    exact isIpBlocked_blockIp _ ip
  · rw [if_neg hge] at h
    exact absurd h (by simp)

theorem trackFailedAttempt_repo (st : AbuseState) (repo : Repo) (id ty ip : String)
    (now : Int) (h : (trackFailedAttempt st repo id ty ip now).1 = true) :
    (trackFailedAttempt st repo id ty ip now).2.2 = blockEntityByType repo id ty := by
  unfold trackFailedAttempt
  dsimp only
  by_cases hge : ((lookupStore (cleanOldAttempts st.attempts now) (ty ++ ":" ++ id)).filter
      (fun t => decide (now - t < ATTEMPT_WINDOW)) ++ [now]).length ≥ MAX_FAILED_ATTEMPTS
  · rw [if_pos hge]
    rfl
  · exfalso
    unfold trackFailedAttempt at h
    dsimp only at h
    rw [if_neg hge] at h
    exact absurd h (by simp)

theorem blockEntityByType_blocks (repo : Repo) (id ty : String)
    (hex : entityExistsIn repo ty id = true) :
    entityBlockedIn (blockEntityByType repo id ty) ty id = true := by
  unfold entityExistsIn at hex
  unfold blockEntityByType entityBlockedIn
  by_cases hdev : (ty == "device") = true
  · rw [if_pos hdev] at hex ⊢
    rw [if_pos hdev]
    rcases Option.isSome_iff_exists.mp hex with ⟨d, hd⟩
    unfold findDevice at hd
    have hp : (d.macAddress == id) = true := by
      have h := List.find?_some hd
      exact h
    have hupd := find?_updateFirst (fun x => x.macAddress == id)
      (fun x : DeviceRec =>
        { x with isBlocked := true,
                 blockReason := some "Excessive failed authentication attempts",
                 failedAttempts := x.failedAttempts + 1 })
      repo.devices d hd hp
    unfold blockDevice findDevice
    simp only [hupd]
  · rw [if_neg hdev] at hex ⊢
    rw [if_neg hdev]
    by_cases hstaff : (ty == "staff") = true
    · have huser : (ty == "user") = false := by
        rw [beq_iff_eq] at hstaff
        subst hstaff
        decide
      rw [huser] at hex
      simp only [Bool.false_eq_true, if_false] at hex
      rw [if_pos hstaff] at hex ⊢
      rw [huser]
      simp only [Bool.false_eq_true, if_false]
      rw [if_pos hstaff]
      rcases Option.isSome_iff_exists.mp hex with ⟨s, hs⟩
      unfold findStaffById at hs
      have hp : (s.id == id) = true := by
        have h := List.find?_some hs
        exact h
      have hupd := find?_updateFirst (fun x => x.id == id)
        (fun x : StaffRec => { x with isBlocked := true, failedAttempts := x.failedAttempts + 1 })
        repo.staff s hs hp
      unfold blockStaff findStaffById
      simp only [hupd]
    · rw [if_neg hstaff]
      by_cases huser : (ty == "user") = true
      · rw [if_pos huser] at hex ⊢
        rw [if_pos huser]
        rcases Option.isSome_iff_exists.mp hex with ⟨u, hu⟩
        unfold findUserById at hu
        have hp : (u.id == id) = true := by
          have h := List.find?_some hu
          exact h
        have hupd := find?_updateFirst (fun x => x.id == id)
          (fun x : UserRec =>
            { x with isBlocked := true, blockReason := some "Excessive failed login attempts" })
          repo.users u hu hp
        unfold blockUser findUserById
        simp only [hupd]
      · rw [if_neg huser] at hex
        rw [if_neg hstaff] at hex
        exact absurd hex (by simp)

/-- C5: `trackFailedAttempt` signals should-block exactly when the windowed
count for the key (as `getFailedAttemptCount` reports it afterwards) has
reached `MAX_FAILED_ATTEMPTS = 3`; on that signal the source IP is banned
and the repository row for the key's entity is marked blocked; and after
`clearFailedAttempts` a single further failure does not block — the count
restarts at 1. -/
theorem trackFailedAttempt_spec : ∀ (st : AbuseState) (repo : Repo) (id ty ip : String)
    (now : Int),
    ((trackFailedAttempt st repo id ty ip now).1 = true ↔
      getFailedAttemptCount (trackFailedAttempt st repo id ty ip now).2.1 id ty now ≥
        MAX_FAILED_ATTEMPTS) ∧
    ((trackFailedAttempt st repo id ty ip now).1 = true →
      isIpBlocked (trackFailedAttempt st repo id ty ip now).2.1 ip = true ∧
      (entityExistsIn repo ty id = true →
        entityBlockedIn (trackFailedAttempt st repo id ty ip now).2.2 ty id = true)) ∧
    (trackFailedAttempt (clearFailedAttempts st id ty) repo id ty ip now).1 = false ∧
    getFailedAttemptCount (trackFailedAttempt (clearFailedAttempts st id ty) repo id ty ip now).2.1
      id ty now = 1 := by
  intro st repo id ty ip now
  refine ⟨?_, ?_, ?_, ?_⟩
  · rw [trackFailedAttempt_count]
    exact trackFailedAttempt_fst_iff st repo id ty ip now
  · intro h
    refine ⟨trackFailedAttempt_banned st repo id ty ip now h, ?_⟩
    intro hex
    rw [trackFailedAttempt_repo st repo id ty ip now h]
    exact blockEntityByType_blocks repo id ty hex
  · have hiff := trackFailedAttempt_fst_iff (clearFailedAttempts st id ty) repo id ty ip now
    rw [windowedAttempts_clear] at hiff
    rw [← Bool.not_eq_true]
    intro htrue
    have hlen := hiff.mp htrue
    unfold MAX_FAILED_ATTEMPTS at hlen
    simp at hlen
  · rw [trackFailedAttempt_count, windowedAttempts_clear]
    rfl

/-- Witness for `trackFailedAttempt_spec`: the third failure against
`okDev`'s MAC blocks the device row and bans the source IP. -/
theorem trackFailedAttempt_spec_witness :
    isIpBlocked
      (trackFailedAttempt twoFailuresState demoRepo "AA:BB:CC:DD:EE:FF" "device" "9.9.9.9" 0).2.1
      "9.9.9.9" = true ∧
    entityBlockedIn
      (trackFailedAttempt twoFailuresState demoRepo "AA:BB:CC:DD:EE:FF" "device" "9.9.9.9" 0).2.2
      "device" "AA:BB:CC:DD:EE:FF" = true := by
  have h := (trackFailedAttempt_spec twoFailuresState demoRepo "AA:BB:CC:DD:EE:FF" "device"
    "9.9.9.9" 0).2.1 (by decide)
  exact ⟨h.1, h.2 (by decide)⟩

/-- C6: voucher redemption is exactly-once.  Redeeming a code whose voucher
is already redeemed returns the already-redeemed failure and leaves the
voucher table (flag, redeemer, timestamp) untouched; redeeming an
unredeemed voucher past its expiry returns the expired failure without
marking it redeemed; and after a successful redemption a second call on the
same code returns already-redeemed without further mutation. -/
theorem redeemVoucher_spec : ∀ (vs : List VoucherRec) (code staffId : String) (now : Int)
    (v : VoucherRec), findVoucher vs code = some v →
    (v.isRedeemed = true →
      redeemVoucher vs code staffId now =
        (RedeemResult.alreadyRedeemed v.redeemedAt v.redeemedBy, vs)) ∧
    (v.isRedeemed = false → now > v.expiryDate →
      redeemVoucher vs code staffId now = (RedeemResult.expired v.expiryDate, vs)) ∧
    (v.isRedeemed = false → ¬(now > v.expiryDate) →
      (redeemVoucher vs code staffId now).1 = RedeemResult.redeemed v.code ∧
      ∀ (staffId2 : String) (now2 : Int),
        redeemVoucher (redeemVoucher vs code staffId now).2 code staffId2 now2 =
          (RedeemResult.alreadyRedeemed (some now) (some staffId),
           (redeemVoucher vs code staffId now).2)) := by
  intro vs code staffId now v hv
  have hfv : findVoucher vs code = vs.find? (fun x => x.code == code) := rfl
  rw [hfv] at hv
  have hp : (v.code == code) = true := by
    have h := List.find?_some hv
    exact h
  refine ⟨?_, ?_, ?_⟩
  · intro hr
    unfold redeemVoucher findVoucher
    rw [hv]
    dsimp only
    rw [if_pos hr]
  · intro hr hexp
    unfold redeemVoucher findVoucher
    rw [hv]
    dsimp only
    rw [hr]
    simp only [Bool.false_eq_true, if_false]
    rw [if_pos hexp]
  · intro hr hexp
    have hupd := find?_updateFirst (fun x => x.code == code)
      (fun x : VoucherRec =>
        { x with isRedeemed := true, redeemedAt := some now, redeemedBy := some staffId })
      vs v hv hp
    have heq : redeemVoucher vs code staffId now =
        (RedeemResult.redeemed v.code,
         updateFirst (fun x => x.code == code)
           (fun x : VoucherRec =>
             { x with isRedeemed := true, redeemedAt := some now, redeemedBy := some staffId })
           vs) := by
      unfold redeemVoucher findVoucher
      rw [hv]
      dsimp only
      rw [hr]
      simp only [Bool.false_eq_true, if_false]
      rw [if_neg hexp]
    refine ⟨by rw [heq], ?_⟩
    intro staffId2 now2
    rw [heq]
    unfold redeemVoucher findVoucher
    dsimp only
    rw [hupd]
    rfl

/-- Witness for `redeemVoucher_spec`: redeeming `freshVoucher` before its
expiry succeeds, and a second redemption of the same code reports
already-redeemed with the first redemption's metadata, mutating nothing. -/
theorem redeemVoucher_spec_witness :
    (redeemVoucher [freshVoucher] "RW100" "staff-1" 50).1 =
      RedeemResult.redeemed "RW100" ∧
    redeemVoucher (redeemVoucher [freshVoucher] "RW100" "staff-1" 50).2 "RW100" "staff-2" 60 =
      (RedeemResult.alreadyRedeemed (some 50) (some "staff-1"),
       (redeemVoucher [freshVoucher] "RW100" "staff-1" 50).2) := by
  have h := (redeemVoucher_spec [freshVoucher] "RW100" "staff-1" 50 freshVoucher rfl).2.2
    (by decide) (by decide)
  exact ⟨h.1, h.2 "staff-2" 60⟩

/-- C7 counterexample: the request that trips a SQL-injection pattern is
itself rejected with HTTP 429 ("Too many requests"), not 403 as claimed —
the 403 status is reserved for subsequent requests from the already-banned
IP. -/
theorem sql_injection_rejected_with_429 :
    (abuseMiddleware AbuseState.empty [] sqlReq 0 AbuseFaults.none).1 =
      AdmitOutcome.reject 429 ∧
    AdmitOutcome.reject 429 ≠ AdmitOutcome.reject 403 := by
  constructor
  · decide
  · decide

/-- C7 (amended): a non-bypassed request from an unbanned IP whose path or
query string matches the SQL-injection pattern is rejected with 429 and its
IP is banned, with the self-expiry timer of `BLOCK_DURATION` (15 minutes)
scheduled; every further non-bypassed request from that IP is rejected with
403, until the unban timer fires and lifts the ban. -/
theorem abuse_sql_ban_spec : ∀ (st : AbuseState) (devices : List DeviceRec)
    (req : WebRequest) (now : Int),
    requestBypassed req = false →
    isIpBlocked st req.ip = false →
    (sqlInjectionPattern req.path || sqlInjectionPattern req.queryStr) = true →
    (abuseMiddleware st devices req now AbuseFaults.none).1 = AdmitOutcome.reject 429 ∧
    isIpBlocked (abuseMiddleware st devices req now AbuseFaults.none).2 req.ip = true ∧
    (BLOCK_DURATION, req.ip) ∈ (abuseMiddleware st devices req now AbuseFaults.none).2.timers ∧
    (∀ (req2 : WebRequest) (devices2 : List DeviceRec) (now2 : Int),
      req2.ip = req.ip → requestBypassed req2 = false →
      (abuseMiddleware (abuseMiddleware st devices req now AbuseFaults.none).2 devices2 req2 now2
        AbuseFaults.none).1 = AdmitOutcome.reject 403) ∧
    isIpBlocked (fireUnblockTimer (abuseMiddleware st devices req now AbuseFaults.none).2 req.ip)
      req.ip = false := by
  intro st devices req now hbp hnotbanned hsql
  have hany : suspiciousPatterns.any (fun p => p req.path || p req.queryStr) = true := by
    unfold suspiciousPatterns
    simp only [List.any_cons, List.any_nil, Bool.or_false]
    rw [hsql]
    simp
  have hsusp : detectSuspiciousActivity st devices req now =
      ⟨true, true, "Potential injection attack detected"⟩ := by
    unfold detectSuspiciousActivity
    rw [if_pos hany]
  have heq : abuseMiddleware st devices req now AbuseFaults.none =
      (AdmitOutcome.reject 429, blockIp st req.ip) := by
    unfold abuseMiddleware
    rw [hbp]
    simp only [Bool.false_eq_true, if_false]
    rw [if_neg (by simp [AbuseFaults.none])]
    rw [hnotbanned]
    simp only [Bool.false_eq_true, if_false]
    rw [if_neg (by simp [AbuseFaults.none])]
    rw [hsusp]
    simp
  rw [heq]
  refine ⟨rfl, isIpBlocked_blockIp st req.ip, ?_, ?_, ?_⟩
  · unfold blockIp
    dsimp only
    exact List.mem_cons_self _ _
  · intro req2 devices2 now2 hip hbp2
    unfold abuseMiddleware
    rw [hbp2]
    simp only [Bool.false_eq_true, if_false]
    rw [if_neg (by simp [AbuseFaults.none])]
    rw [hip, isIpBlocked_blockIp st req.ip]
    rfl
  · unfold fireUnblockTimer isIpBlocked
    dsimp only
    exact contains_filter_ne _ req.ip

/-- Witness for `abuse_sql_ban_spec`: the concrete SQL-metacharacter
request from a fresh state is rejected 429, its IP is banned with the
15-minute timer, and a plain follow-up request from the same IP gets 403
until the timer fires. -/
theorem abuse_sql_ban_spec_witness :
    (abuseMiddleware AbuseState.empty [] sqlReq 0 AbuseFaults.none).1 =
      AdmitOutcome.reject 429 ∧
    isIpBlocked (abuseMiddleware AbuseState.empty [] sqlReq 0 AbuseFaults.none).2
      sqlReq.ip = true ∧
    (BLOCK_DURATION, sqlReq.ip) ∈
      (abuseMiddleware AbuseState.empty [] sqlReq 0 AbuseFaults.none).2.timers ∧
    (abuseMiddleware (abuseMiddleware AbuseState.empty [] sqlReq 0 AbuseFaults.none).2 []
      { plainReq with ip := sqlReq.ip } 5 AbuseFaults.none).1 = AdmitOutcome.reject 403 ∧
    isIpBlocked
      (fireUnblockTimer (abuseMiddleware AbuseState.empty [] sqlReq 0 AbuseFaults.none).2 sqlReq.ip)
      sqlReq.ip = false := by
  have h := abuse_sql_ban_spec AbuseState.empty [] sqlReq 0 (by decide) (by decide) (by decide)
  exact ⟨h.1, h.2.1, h.2.2.1, h.2.2.2.1 { plainReq with ip := sqlReq.ip } [] 5 rfl (by decide),
    h.2.2.2.2⟩

/-- C8 counterexample: a login from a device already registered to the user
is *not* always refreshed — when that device is blocked, the login is
rejected with the device-blocked Forbidden response and the device row
(including `lastSeen`) is left untouched. -/
theorem blocked_registered_device_not_refreshed :
    loginDeviceStep [blockedDev] user4 "AA:BB:CC:DD:EE:FF" 99 "d-new" =
      (LoginDeviceOutcome.deviceBlocked (some "abuse"), [blockedDev]) := by
  decide

/-- C8 (amended): a user at the active-device limit presenting an
unregistered identifier is rejected with the device-limit Conflict and no
device row is persisted; a registered device is never subject to the limit
— it is rejected as blocked when blocked (without refresh), reactivated
with `lastSeen` refreshed when inactive and unblocked, and left unmodified
when already active and unblocked. -/
theorem loginDeviceStep_spec : ∀ (devices : List DeviceRec) (user : UserRec) (mac : String)
    (now : Int) (newId : String),
    (findUserDevice devices mac user.id = none → activeDeviceCount devices user.id ≥ maxDevices →
      loginDeviceStep devices user mac now newId = (LoginDeviceOutcome.limitExceeded, devices)) ∧
    (∀ d, findUserDevice devices mac user.id = some d →
      (loginDeviceStep devices user mac now newId).1 ≠ LoginDeviceOutcome.limitExceeded ∧
      (d.isBlocked = true →
        loginDeviceStep devices user mac now newId =
          (LoginDeviceOutcome.deviceBlocked d.blockReason, devices)) ∧
      (d.isBlocked = false → d.isActive = false →
        (loginDeviceStep devices user mac now newId).1 = LoginDeviceOutcome.proceed d.id ∧
        findUserDevice (loginDeviceStep devices user mac now newId).2 mac user.id =
          some { d with isActive := true, lastSeen := now }) ∧
      (d.isBlocked = false → d.isActive = true →
        loginDeviceStep devices user mac now newId =
          (LoginDeviceOutcome.proceed d.id, devices))) := by
  intro devices user mac now newId
  have hfud : findUserDevice devices mac user.id =
      devices.find? (fun x => x.macAddress == mac && x.userId == some user.id) := rfl
  cases hfd : devices.find? (fun x => x.macAddress == mac && x.userId == some user.id) with
  | none =>
    refine ⟨?_, ?_⟩
    · intro _ hcnt
      unfold loginDeviceStep
      rw [hfud, hfd]
      dsimp only
      rw [if_pos hcnt]
    · intro d hd
      rw [hfud, hfd] at hd
      exact absurd hd (by simp)
  | some d =>
    refine ⟨?_, ?_⟩
    · intro hnone
      rw [hfud, hfd] at hnone
      exact absurd hnone (by simp)
    · intro d' hd'
      rw [hfud, hfd, Option.some_inj] at hd'
      subst hd'
      have hp : (d.macAddress == mac && d.userId == some user.id) = true := by
        have h := List.find?_some hfd
        exact h
      have heqstep : ∀ r : LoginDeviceOutcome × List DeviceRec,
          r.1 ≠ LoginDeviceOutcome.limitExceeded →
          loginDeviceStep devices user mac now newId = r →
          (loginDeviceStep devices user mac now newId).1 ≠ LoginDeviceOutcome.limitExceeded := by
        intro r hr hstep
        rw [hstep]
        exact hr
      by_cases hb : d.isBlocked = true
      · have hstep : loginDeviceStep devices user mac now newId =
            (LoginDeviceOutcome.deviceBlocked d.blockReason, devices) := by
          unfold loginDeviceStep
          rw [hfud, hfd]
          dsimp only
          rw [hb]
          simp
        refine ⟨by rw [hstep]; simp, fun _ => hstep, ?_, ?_⟩
        · intro hb' _
          rw [hb] at hb'
          exact absurd hb' (by simp)
        · intro hb' _
          rw [hb] at hb'
          exact absurd hb' (by simp)
      · rw [Bool.not_eq_true] at hb
        by_cases ha : d.isActive = true
        · have hstep : loginDeviceStep devices user mac now newId =
              (LoginDeviceOutcome.proceed d.id, devices) := by
            unfold loginDeviceStep
            rw [hfud, hfd]
            dsimp only
            rw [hb, ha]
            simp
          refine ⟨by rw [hstep]; simp, ?_, ?_, fun _ _ => hstep⟩
          · intro hb'
            rw [hb] at hb'
            exact absurd hb' (by simp)
          · intro _ ha'
            rw [ha] at ha'
            exact absurd ha' (by simp)
        · rw [Bool.not_eq_true] at ha
          have hupd := find?_updateFirst (fun x => x.macAddress == mac && x.userId == some user.id)
            (fun x : DeviceRec => { x with isActive := true, lastSeen := now }) devices d hfd hp
          have hstep : loginDeviceStep devices user mac now newId =
              (LoginDeviceOutcome.proceed d.id,
               updateFirst (fun x => x.macAddress == mac && x.userId == some user.id)
                 (fun x : DeviceRec => { x with isActive := true, lastSeen := now }) devices) := by
            unfold loginDeviceStep
            rw [hfud, hfd]
            dsimp only
            rw [hb, ha]
            simp
          refine ⟨by rw [hstep]; simp, ?_, ?_, ?_⟩
          · intro hb'
            rw [hb] at hb'
            exact absurd hb' (by simp)
          · intro _ _
            refine ⟨by rw [hstep], ?_⟩
            rw [hstep]
            exact hupd
          · intro _ ha'
            rw [ha] at ha'
            exact absurd ha' (by simp)

/-- Witness for `loginDeviceStep_spec`: a user already holding two active
devices who presents a new identifier is rejected with the device limit and
no third device row is persisted. -/
theorem loginDeviceStep_spec_witness :
    loginDeviceStep [okDev, { okDev with id := "d-2", macAddress := "11:22:33:44:55:66" }]
      user4 "77:88:99:AA:BB:CC" 7 "d-3" =
      (LoginDeviceOutcome.limitExceeded,
       [okDev, { okDev with id := "d-2", macAddress := "11:22:33:44:55:66" }]) :=
  (loginDeviceStep_spec [okDev, { okDev with id := "d-2", macAddress := "11:22:33:44:55:66" }]
    user4 "77:88:99:AA:BB:CC" 7 "d-3").1 (by decide) (by decide)

/-- C9: a `/generate_204` probe is always classified as a captive-portal
request and dispatched to the Android handler; an authorized device gets an
empty 204, any other device (unknown ones included) gets a 302 redirect to
the portal carrying the resolved identifier and the android source tag, and
an internal error degrades to the bare portal redirect — the status is
always 204 or 302, never a 5xx. -/
theorem generate204_spec : ∀ (devices : List DeviceRec) (users : List UserRec)
    (req : ProbeRequest) (now : Int) (fault : Bool),
    req.path = "/generate_204" →
    isCaptivePortalRequest req = true ∧
    captivePortalMiddleware devices users req now fault =
      some (handleAndroidCaptivePortal devices users (extractDeviceInfo req) now fault) ∧
    (fault = false →
      (checkDeviceAuthorization devices users (extractDeviceInfo req) now).1 = true →
      (handleAndroidCaptivePortal devices users (extractDeviceInfo req) now fault).1 =
        { status := 204, location := none, body := none }) ∧
    (fault = false →
      (checkDeviceAuthorization devices users (extractDeviceInfo req) now).1 = false →
      (handleAndroidCaptivePortal devices users (extractDeviceInfo req) now fault).1 =
        { status := 302,
          location := some ("/portal?device=" ++ encodeURIComponent (extractDeviceInfo req) ++
            "&source=android"),
          body := none }) ∧
    (fault = true →
      (handleAndroidCaptivePortal devices users (extractDeviceInfo req) now fault).1 =
        { status := 302, location := some "/portal?source=android", body := none }) ∧
    ((handleAndroidCaptivePortal devices users (extractDeviceInfo req) now fault).1.status = 204 ∨
     (handleAndroidCaptivePortal devices users (extractDeviceInfo req) now fault).1.status = 302) := by
  intro devices users req now fault hpath
  have hmem : captivePortalPaths.contains "/generate_204" = true := by decide
  have hcp : isCaptivePortalRequest req = true := by
    unfold isCaptivePortalRequest
    rw [hpath, hmem]
    simp
  have hthen : (req.path == "/generate_204") = true := by
    rw [hpath]
    simp
  refine ⟨hcp, ?_, ?_, ?_, ?_, ?_⟩
  · unfold captivePortalMiddleware
    rw [if_pos hcp, if_pos hthen]
  · intro hf hauth
    subst hf
    unfold handleAndroidCaptivePortal
    simp only [Bool.false_eq_true, if_false]
    rw [hauth]
    simp
  · intro hf hauth
    subst hf
    unfold handleAndroidCaptivePortal
    simp only [Bool.false_eq_true, if_false]
    rw [hauth]
    simp
  · intro hf
    subst hf
    unfold handleAndroidCaptivePortal
    simp
  · cases fault with
    | true =>
      right
      unfold handleAndroidCaptivePortal
      simp
    | false =>
      unfold handleAndroidCaptivePortal
      simp only [Bool.false_eq_true, if_false]
      by_cases hauth : (checkDeviceAuthorization devices users (extractDeviceInfo req) now).1 = true
      · left
        rw [hauth]
        simp
      · right
        rw [Bool.not_eq_true] at hauth
        rw [hauth]
        simp

/-- Witness for `generate204_spec`: the android probe with no MAC header
resolves to its IP, which is no registered device, so the middleware
answers the probe with the 302 portal redirect carrying that identifier. -/
theorem generate204_spec_witness :
    captivePortalMiddleware [] [] androidProbe 0 false =
      some (handleAndroidCaptivePortal [] [] (extractDeviceInfo androidProbe) 0 false) ∧
    (handleAndroidCaptivePortal [] [] (extractDeviceInfo androidProbe) 0 false).1 =
      { status := 302,
        location := some ("/portal?device=" ++ encodeURIComponent (extractDeviceInfo androidProbe) ++
          "&source=android"),
        body := none } := by
  have h := generate204_spec [] [] androidProbe 0 false rfl
  exact ⟨h.2.1, h.2.2.2.1 rfl (by decide)⟩

/-- C10: the abuse middleware fails open on its own internal errors — an
exception raised while checking the banned-IP set, while scanning for
suspicious patterns, or while recording the request in the sliding window
lands in the surrounding catch, which passes the request to the next
handler instead of rejecting it. -/
theorem abuse_fails_open_spec : ∀ (st : AbuseState) (devices : List DeviceRec)
    (req : WebRequest) (now : Int) (faults : AbuseFaults),
    requestBypassed req = false →
    (faults.banCheck = true →
      abuseMiddleware st devices req now faults = (AdmitOutcome.nextOk, st)) ∧
    (faults.banCheck = false → isIpBlocked st req.ip = false → faults.scan = true →
      abuseMiddleware st devices req now faults = (AdmitOutcome.nextOk, st)) ∧
    (faults.banCheck = false → isIpBlocked st req.ip = false → faults.scan = false →
      ((detectSuspiciousActivity st devices req now).isSuspicious &&
        (detectSuspiciousActivity st devices req now).shouldBlock) = false →
      faults.track = true →
      abuseMiddleware st devices req now faults = (AdmitOutcome.nextOk, st)) := by
  intro st devices req now faults hbp
  refine ⟨?_, ?_, ?_⟩
  · intro hban
    unfold abuseMiddleware
    rw [hbp]
    simp only [Bool.false_eq_true, if_false]
    rw [if_pos hban]
  · intro hban hnb hscan
    unfold abuseMiddleware
    rw [hbp]
    simp only [Bool.false_eq_true, if_false]
    rw [hban]
    simp only [Bool.false_eq_true, if_false]
    rw [hnb]
    simp only [Bool.false_eq_true, if_false]
    rw [if_pos hscan]
  · intro hban hnb hscan hsusp htrack
    unfold abuseMiddleware
    rw [hbp]
    simp only [Bool.false_eq_true, if_false]
    rw [hban]
    simp only [Bool.false_eq_true, if_false]
    rw [hnb]
    simp only [Bool.false_eq_true, if_false]
    rw [hscan]
    simp only [Bool.false_eq_true, if_false]
    rw [hsusp]
    simp only [Bool.false_eq_true, if_false]
    rw [if_pos htrack]

/-- Witness for `abuse_fails_open_spec`: a fault at each of the three steps
on a plain request admits the request with the state unchanged. -/
theorem abuse_fails_open_spec_witness :
    abuseMiddleware AbuseState.empty [] plainReq 0 ⟨true, false, false⟩ =
      (AdmitOutcome.nextOk, AbuseState.empty) ∧
    abuseMiddleware AbuseState.empty [] plainReq 0 ⟨false, true, false⟩ =
      (AdmitOutcome.nextOk, AbuseState.empty) ∧
    abuseMiddleware AbuseState.empty [] plainReq 0 ⟨false, false, true⟩ =
      (AdmitOutcome.nextOk, AbuseState.empty) :=
  ⟨(abuse_fails_open_spec AbuseState.empty [] plainReq 0 ⟨true, false, false⟩ (by decide)).1 rfl,
   (abuse_fails_open_spec AbuseState.empty [] plainReq 0 ⟨false, true, false⟩ (by decide)).2.1
     rfl (by decide) rfl,
   (abuse_fails_open_spec AbuseState.empty [] plainReq 0 ⟨false, false, true⟩ (by decide)).2.2
     rfl (by decide) rfl (by decide) rfl⟩

end LSLT
